import Mathlib

/-!
Shallow embedding of the `spk` create-pipeline command.

Sources embedded:
- `src/unnamed/part_000`: `createPipelineCommandDecorator` and `installPipeline`.
- `src/src/lib/pipelines/pipelines.ts`: `definitionForAzureRepoPipeline`,
  `createPipelineForDefinition`, `queueBuild`, constants.

External vendor calls (the Azure DevOps build API) are modelled as oracles in
an environment; every run produces a result together with the ordered trace of
vendor calls it made, with the exact arguments passed.
-/

namespace Spk

/-- A JavaScript runtime value, as far as the option handling of the command can
observe it (the `typeof x !== "string"` checks and destructuring defaults). -/
inductive JsVal
  | str (s : String)
  | num (n : Int)
  | boolean (b : Bool)
  | undef
deriving DecidableEq, Repr

/-- `typeof v === "string"`. -/
def JsVal.isStr : JsVal → Bool
  | JsVal.str _ => true
  | _ => false

/-- An error thrown by a vendor API call (opaque to this program). -/
structure VendorErr where
  msg : String
deriving DecidableEq, Repr

/-- `DefinitionTriggerType` enum of the vendor SDK. -/
inductive DefinitionTriggerType
  | noTrigger
  | continuousIntegration
  | batchedContinuousIntegration
  | schedule
  | gatedCheckIn
  | batchedGatedCheckIn
  | pullRequest
  | buildCompletion
deriving DecidableEq, Repr

/-- `DefinitionQueueStatus` enum of the vendor SDK. -/
inductive DefinitionQueueStatus
  | enabled
  | paused
  | disabled
deriving DecidableEq, Repr

/-- `DefinitionType` enum of the vendor SDK. -/
inductive DefinitionType
  | xaml
  | build
deriving DecidableEq, Repr

/-- `DefinitionQuality` enum of the vendor SDK. -/
inductive DefinitionQuality
  | definition
  | draft
deriving DecidableEq, Repr

/-- `BuildDefinitionVariable` of the vendor SDK (all fields optional). -/
structure BuildDefinitionVariable where
  allowOverride : Option Bool := none
  isSecret : Option Bool := none
  value : Option String := none
deriving DecidableEq, Repr

/-- `ContinuousIntegrationTrigger` of the vendor SDK; only the fields this
program populates. -/
structure ContinuousIntegrationTrigger where
  batchChanges : Option Bool := none
  branchFilters : Option (List String) := none
  maxConcurrentBuildsPerBranch : Option Nat := none
  settingsSourceType : Option Nat := none
  triggerType : Option DefinitionTriggerType := none
deriving DecidableEq, Repr

/-- `TaskAgentPoolReference` of the vendor SDK. -/
structure TaskAgentPoolReference where
  id : Option Nat := none
  name : Option String := none
deriving DecidableEq, Repr

/-- `AgentPoolQueue` of the vendor SDK. -/
structure AgentPoolQueue where
  name : Option String := none
  pool : Option TaskAgentPoolReference := none
deriving DecidableEq, Repr

/-- `BuildRepository` of the vendor SDK; only the fields this program
populates. `properties` holds string key/value pairs. -/
structure BuildRepository where
  defaultBranch : Option String := none
  id : Option String := none
  name : Option String := none
  type : Option String := none
  url : Option String := none
  properties : Option (List (String × String)) := none
deriving DecidableEq, Repr

/-- `YamlProcess` of the vendor SDK. -/
structure YamlProcess where
  yamlFilename : Option String := none
deriving DecidableEq, Repr

/-- `BuildDefinition` of the vendor SDK; the fields this program populates or
reads. `id` is assigned by the server on creation. -/
structure BuildDefinition where
  badgeEnabled : Option Bool := none
  triggers : Option (List ContinuousIntegrationTrigger) := none
  queue : Option AgentPoolQueue := none
  queueStatus : Option DefinitionQueueStatus := none
  name : Option String := none
  type : Option DefinitionType := none
  quality : Option DefinitionQuality := none
  repository : Option BuildRepository := none
  process : Option YamlProcess := none
  variablesMap : Option (List (String × BuildDefinitionVariable)) := none
  id : Option Nat := none
deriving DecidableEq, Repr

/-- `DefinitionReference` of the vendor SDK, as used inside `Build`. -/
structure BuildDefinitionReference where
  id : Option Nat := none
deriving DecidableEq, Repr

/-- `Build` of the vendor SDK; only the field this program populates. -/
structure Build where
  definition : Option BuildDefinitionReference := none
deriving DecidableEq, Repr

/-- `pipelines.ts` line 19. -/
def hostedUbuntuPool : String := "Hosted Ubuntu 1604"

/-- `pipelines.ts` line 20. -/
def hostedUbuntuPoolId : Nat := 224

/-- `RepositoryTypes` enum of `pipelines.ts` (string-valued). -/
def RepositoryTypes.Azure : String := "tfsgit"

/-- `RepositoryTypes` enum of `pipelines.ts` (string-valued). -/
def RepositoryTypes.Github : String := "github"

/-- `IAzureRepoPipelineConfig` of `pipelines.ts` (same fields as `IPipeline`). -/
structure IAzureRepoPipelineConfig where
  pipelineName : String
  repositoryUrl : String
  repositoryName : String
  yamlFileBranch : String
  yamlFilePath : String
  branchFilters : List String
  maximumConcurrentBuilds : Nat
  variablesMap : Option (List (String × BuildDefinitionVariable)) := none
deriving DecidableEq, Repr

/-- `definitionForAzureRepoPipeline` of `pipelines.ts` lines 94-141: builds a
`BuildDefinition` field by field from the pipeline configuration. -/
def definitionForAzureRepoPipeline
    (pipelineConfig : IAzureRepoPipelineConfig) : BuildDefinition :=
  { badgeEnabled := some true
    triggers := some
      [{ batchChanges := some false
         branchFilters := some pipelineConfig.branchFilters
         maxConcurrentBuildsPerBranch := some pipelineConfig.maximumConcurrentBuilds
         settingsSourceType := some 2
         triggerType := some DefinitionTriggerType.continuousIntegration }]
    queue := some
      { name := some hostedUbuntuPool
        pool := some { id := some hostedUbuntuPoolId, name := some hostedUbuntuPool } }
    queueStatus := some DefinitionQueueStatus.enabled
    name := some pipelineConfig.pipelineName
    type := some DefinitionType.build
    quality := some DefinitionQuality.definition
    repository := some
      { defaultBranch := some pipelineConfig.yamlFileBranch
        id := some pipelineConfig.repositoryName
        name := some pipelineConfig.repositoryName
        type := some RepositoryTypes.Azure
        url := some pipelineConfig.repositoryUrl }
    process := some { yamlFilename := some pipelineConfig.yamlFilePath }
    variablesMap := pipelineConfig.variablesMap
    id := none }

/-- The build API client as the program can observe it: the outcome of each
vendor call as a function of the exact arguments the program passes. -/
structure BuildApi where
  createDefinitionResult :
    BuildDefinition → String → Except VendorErr (Option BuildDefinition)
  queueBuildResult : Build → String → Except VendorErr Build

/-- The external environment of one run: the outcome of the authentication
call `getBuildApiClient`. -/
structure Env where
  getBuildApiClientResult : Except VendorErr BuildApi

/-- One vendor API call, with the exact arguments the program passed. -/
inductive Event
  | getBuildApiClientCall (orgName personalAccessToken : String)
  | createDefinitionCall (definition : BuildDefinition) (project : String)
  | queueBuildCall (build : Build) (project : String)
deriving DecidableEq, Repr

/-- How a run of `installPipeline` (or of the command action) ends. -/
inductive RunResult
  | exited (status : Nat)
  | threw (msg : String)
  | success
deriving DecidableEq, Repr

/-- `createPipelineForDefinition` of `pipelines.ts` lines 207-233: calls
`buildApi.createDefinition(definition, azdoProject)` once; a vendor error and
a `null` result both end in a thrown `Error("Error creating definition")`
(the inner `null`-case throw is caught by the same catch and rethrown). -/
def createPipelineForDefinition (buildApi : BuildApi) (azdoProject : String)
    (definition : BuildDefinition) : Except String BuildDefinition × List Event :=
  (match buildApi.createDefinitionResult definition azdoProject with
    | Except.error _ => Except.error "Error creating definition"
    | Except.ok none => Except.error "Error creating definition"
    | Except.ok (some createdDefn) => Except.ok createdDefn,
   [Event.createDefinitionCall definition azdoProject])

/-- The `buildReference` literal built by `queueBuild` (`pipelines.ts`
lines 247-251). -/
def queueBuildReference (definitionId : Nat) : Build :=
  { definition := some { id := some definitionId } }

/-- `queueBuild` of `pipelines.ts` lines 242-259: builds a `Build` holding only
`definition.id = definitionId` and submits it once; a vendor error ends in a
thrown `Error("Error queueing build")`. -/
def queueBuild (buildApi : BuildApi) (azdoProject : String)
    (definitionId : Nat) : Except String Build × List Event :=
  (match buildApi.queueBuildResult (queueBuildReference definitionId) azdoProject with
    | Except.error _ => Except.error "Error queueing build"
    | Except.ok b => Except.ok b,
   [Event.queueBuildCall (queueBuildReference definitionId) azdoProject])

/-- Model of the Node `path.join` for the plain path segments this program uses
(no separators, no dot components inside a segment): empty segments are
dropped and the rest are joined with `/`; an all-empty join yields `.`. -/
def pathJoin (segments : List String) : String :=
  let joined := String.intercalate "/" (segments.filter (fun s => s != ""))
  if joined = "" then "." else joined

/-- JavaScript truthiness of a `string | undefined` value: `undefined` and the
empty string are falsy. -/
def jsTruthy : Option String → Bool
  | none => false
  | some v => v != ""

/-- The argument record of `installPipeline` (part_000 lines 139-148),
bundled. `exitFn` is modelled by the `RunResult.exited` outcome. -/
structure InstallArgs where
  serviceName : String
  orgName : String
  personalAccessToken : String
  pipelineName : String
  repositoryName : String
  repositoryUrl : String
  project : String
  packagesDir : Option String
deriving DecidableEq, Repr

/-- The pipeline configuration literal that `installPipeline` passes to
`definitionForAzureRepoPipeline` (part_000 lines 161-172), including the
ternary on `packagesDir` (JS truthiness) that picks the YAML file path. -/
def installPipelineConfig (a : InstallArgs) : IAzureRepoPipelineConfig :=
  { branchFilters := ["master"]
    maximumConcurrentBuilds := 1
    pipelineName := a.pipelineName
    repositoryName := a.repositoryName
    repositoryUrl := a.repositoryUrl
    yamlFileBranch := "master"
    yamlFilePath :=
      if jsTruthy a.packagesDir then
        pathJoin [a.packagesDir.getD "", a.serviceName, "azure-pipelines.yaml"]
      else
        "azure-pipelines.yaml"
    variablesMap := none }

/-- `installPipeline` of part_000 lines 139-207: authenticate, build the
definition, create it, check the returned `id`, queue the build. Each
`return exitFn(1)` is `RunResult.exited 1`; the `throw` on a missing `id` is
`RunResult.threw`. Returns the outcome and the ordered vendor-call trace. -/
def installPipeline (env : Env) (a : InstallArgs) : RunResult × List Event :=
  match env.getBuildApiClientResult with
  | Except.error _ =>
      (RunResult.exited 1,
       [Event.getBuildApiClientCall a.orgName a.personalAccessToken])
  | Except.ok devopsClient =>
      let authEvents := [Event.getBuildApiClientCall a.orgName a.personalAccessToken]
      let definition := definitionForAzureRepoPipeline (installPipelineConfig a)
      match createPipelineForDefinition devopsClient a.project definition with
      | (Except.error _, createEvents) =>
          (RunResult.exited 1, authEvents ++ createEvents)
      | (Except.ok builtDefinition, createEvents) =>
          match builtDefinition.id with
          | none =>
              (RunResult.threw
                "Invalid BuildDefinition created, parameter id is missing",
               authEvents ++ createEvents)
          | some defnId =>
              match queueBuild devopsClient a.project defnId with
              | (Except.error _, queueEvents) =>
                  (RunResult.exited 1, authEvents ++ createEvents ++ queueEvents)
              | (Except.ok _, queueEvents) =>
                  (RunResult.success, authEvents ++ createEvents ++ queueEvents)

/-- The `azure_devops` section of the spk `Config` (only the fields this
command reads). -/
structure AzureDevopsConfig where
  org : Option String := none
  access_token : Option String := none
  project : Option String := none
deriving DecidableEq, Repr

/-- The spk `Config` (only the section this command reads). -/
structure Config where
  azure_devops : Option AzureDevopsConfig := none
deriving DecidableEq, Repr

/-- The commander `opts` object of the `create-pipeline` command: each option
is `undef` when omitted on the command line. -/
structure CommandOpts where
  pipelineName : JsVal := JsVal.undef
  personalAccessToken : JsVal := JsVal.undef
  orgName : JsVal := JsVal.undef
  repoName : JsVal := JsVal.undef
  repoUrl : JsVal := JsVal.undef
  devopsProject : JsVal := JsVal.undef
  packagesDir : JsVal := JsVal.undef
deriving DecidableEq, Repr

/-- A JS destructuring default: the fallback applies exactly when the
property is `undefined`. -/
def withDefault (v fallback : JsVal) : JsVal :=
  match v with
  | JsVal.undef => fallback
  | other => other

/-- Lift an optional string (a possibly missing config field) to a `JsVal`. -/
def jsOptStr : Option String → JsVal
  | none => JsVal.undef
  | some v => JsVal.str v

/-- The JS expression `azure_devops && azure_devops.<field>`. -/
def configFallback (cfg : Config) (field : AzureDevopsConfig → Option String) :
    JsVal :=
  match cfg.azure_devops with
  | none => JsVal.undef
  | some a => jsOptStr (field a)

/-- The resolved option values after the destructuring of part_000
lines 46-54. -/
structure ResolvedOpts where
  orgName : JsVal
  personalAccessToken : JsVal
  devopsProject : JsVal
  pipelineName : JsVal
  packagesDir : JsVal
  repoName : JsVal
  repoUrl : JsVal
deriving DecidableEq, Repr

/-- The destructuring with defaults of part_000 lines 46-54. `gitRepoName`
and `gitRepoUrl` are the values of `getRepositoryName(gitOriginUrl)` and
`getRepositoryUrl(gitOriginUrl)`, supplied by the environment. -/
def resolveOpts (opts : CommandOpts) (cfg : Config) (serviceName : String)
    (gitRepoName gitRepoUrl : JsVal) : ResolvedOpts :=
  { orgName := withDefault opts.orgName (configFallback cfg (fun a => a.org))
    personalAccessToken :=
      withDefault opts.personalAccessToken
        (configFallback cfg (fun a => a.access_token))
    devopsProject :=
      withDefault opts.devopsProject (configFallback cfg (fun a => a.project))
    pipelineName :=
      withDefault opts.pipelineName (JsVal.str (serviceName ++ "-pipeline"))
    packagesDir := opts.packagesDir
    repoName := withDefault opts.repoName gitRepoName
    repoUrl := withDefault opts.repoUrl gitRepoUrl }

/-- The `typeof ... !== "string"` validation chain of part_000 lines 64-99, in
source order; returns the message of the first failure. -/
def validateOpts (r : ResolvedOpts) : Option String :=
  if !r.pipelineName.isStr then
    some "--pipeline-name must be of type string"
  else if !r.personalAccessToken.isStr then
    some "--personal-access-token must be of type string"
  else if !r.orgName.isStr then
    some "--org-url must be of type string"
  else if !r.repoName.isStr then
    some "--repo-name must be of type string"
  else if !r.repoUrl.isStr then
    some "--repo-url must be of type string"
  else if !r.devopsProject.isStr then
    some "--devops-project must be of type string"
  else
    none

/-- A resolved `packagesDir` value as the `string | undefined` parameter of
`installPipeline` (commander only ever produces strings for valued flags). -/
def jsValToOptionalStr : JsVal → Option String
  | JsVal.str s => some s
  | _ => none

/-- The `create-pipeline` command action of part_000 lines 42-123: resolve
options, validate (a failure logs and calls `process.exit(1)` before any
vendor call), then run `installPipeline`; a thrown error from it is caught,
logged and ends in `process.exit(1)`. -/
def commandAction (env : Env) (cfg : Config) (serviceName : String)
    (opts : CommandOpts) (gitRepoName gitRepoUrl : JsVal) :
    RunResult × List Event :=
  let r := resolveOpts opts cfg serviceName gitRepoName gitRepoUrl
  match validateOpts r with
  | some _ => (RunResult.exited 1, [])
  | none =>
      match r.pipelineName, r.personalAccessToken, r.orgName,
            r.repoName, r.repoUrl, r.devopsProject with
      | JsVal.str pn, JsVal.str pat, JsVal.str org,
        JsVal.str rn, JsVal.str ru, JsVal.str dp =>
          let run := installPipeline env
            { serviceName := serviceName
              orgName := org
              personalAccessToken := pat
              pipelineName := pn
              repositoryName := rn
              repositoryUrl := ru
              project := dp
              packagesDir := jsValToOptionalStr r.packagesDir }
          (match run.1 with
            | RunResult.threw _ => RunResult.exited 1
            | other => other,
           run.2)
      | _, _, _, _, _, _ => (RunResult.exited 1, [])

/-! Concrete environments and arguments, used to exercise the runs on small
inputs. -/

/-- The authentication event of a run. -/
def authEvent (a : InstallArgs) : Event :=
  Event.getBuildApiClientCall a.orgName a.personalAccessToken

/-- The definition-creation event of a run. -/
def createEvent (a : InstallArgs) : Event :=
  Event.createDefinitionCall
    (definitionForAzureRepoPipeline (installPipelineConfig a)) a.project

/-- The build-queueing event of a run, for definition id `i`. -/
def queueEvent (a : InstallArgs) (i : Nat) : Event :=
  Event.queueBuildCall (queueBuildReference i) a.project

/-- A vendor that accepts everything: `createDefinition` echoes the submitted
definition with a server-assigned id of 42, `queueBuild` echoes the build. -/
def alwaysOkApi : BuildApi :=
  { createDefinitionResult := fun d _ => Except.ok (some { d with id := some 42 })
    queueBuildResult := fun b _ => Except.ok b }

/-- An environment whose three vendor calls all succeed. -/
def okEnv : Env := { getBuildApiClientResult := Except.ok alwaysOkApi }

/-- A vendor whose `createDefinition` echoes the definition unchanged, so the
id of the returned definition stays `none`. -/
def noIdApi : BuildApi :=
  { createDefinitionResult := fun d _ => Except.ok (some d)
    queueBuildResult := fun b _ => Except.ok b }

/-- An environment whose created definition comes back without an id. -/
def noIdEnv : Env := { getBuildApiClientResult := Except.ok noIdApi }

/-- An environment whose authentication call fails. -/
def authFailEnv : Env :=
  { getBuildApiClientResult := Except.error { msg := "auth failed" } }

/-- A vendor whose `createDefinition` call fails. -/
def createFailApi : BuildApi :=
  { createDefinitionResult := fun _ _ => Except.error { msg := "create failed" }
    queueBuildResult := fun b _ => Except.ok b }

/-- An environment whose `createDefinition` call fails. -/
def createFailEnv : Env := { getBuildApiClientResult := Except.ok createFailApi }

/-- A vendor whose `queueBuild` call fails. -/
def queueFailApi : BuildApi :=
  { createDefinitionResult := fun d _ => Except.ok (some { d with id := some 42 })
    queueBuildResult := fun _ _ => Except.error { msg := "queue failed" } }

/-- An environment whose `queueBuild` call fails. -/
def queueFailEnv : Env := { getBuildApiClientResult := Except.ok queueFailApi }

/-- Sample monorepo arguments. -/
def sampleArgs : InstallArgs :=
  { serviceName := "svc"
    orgName := "contoso"
    personalAccessToken := "pat"
    pipelineName := "svc-pipeline"
    repositoryName := "repo"
    repositoryUrl := "https://dev.azure.com/contoso/proj/_git/repo"
    project := "proj"
    packagesDir := some "packages" }

/-- Sample arguments with a defined but empty `packagesDir`. -/
def emptyPkgArgs : InstallArgs := { sampleArgs with packagesDir := some "" }

/-! Run-shape lemmas: one equation of `installPipeline` per outcome of the
vendor calls. Together they cover every environment. -/

lemma installPipeline_authFail (env : Env) (a : InstallArgs) (e : VendorErr)
    (h : env.getBuildApiClientResult = Except.error e) :
    installPipeline env a = (RunResult.exited 1, [authEvent a]) := by
  unfold installPipeline
  rw [h]
  rfl

lemma installPipeline_createErr (env : Env) (a : InstallArgs) (api : BuildApi)
    (e : VendorErr)
    (h1 : env.getBuildApiClientResult = Except.ok api)
    (h2 : api.createDefinitionResult
        (definitionForAzureRepoPipeline (installPipelineConfig a)) a.project
      = Except.error e) :
    installPipeline env a = (RunResult.exited 1, [authEvent a, createEvent a]) := by
  unfold installPipeline
  rw [h1]
  simp [createPipelineForDefinition, h2, authEvent, createEvent]

lemma installPipeline_createNull (env : Env) (a : InstallArgs) (api : BuildApi)
    (h1 : env.getBuildApiClientResult = Except.ok api)
    (h2 : api.createDefinitionResult
        (definitionForAzureRepoPipeline (installPipelineConfig a)) a.project
      = Except.ok none) :
    installPipeline env a = (RunResult.exited 1, [authEvent a, createEvent a]) := by
  unfold installPipeline
  rw [h1]
  simp [createPipelineForDefinition, h2, authEvent, createEvent]

lemma installPipeline_noId (env : Env) (a : InstallArgs) (api : BuildApi)
    (bd : BuildDefinition)
    (h1 : env.getBuildApiClientResult = Except.ok api)
    (h2 : api.createDefinitionResult
        (definitionForAzureRepoPipeline (installPipelineConfig a)) a.project
      = Except.ok (some bd))
    (h3 : bd.id = none) :
    installPipeline env a
      = (RunResult.threw "Invalid BuildDefinition created, parameter id is missing",
         [authEvent a, createEvent a]) := by
  unfold installPipeline
  rw [h1]
  simp [createPipelineForDefinition, h2, h3, authEvent, createEvent]

lemma installPipeline_queueErr (env : Env) (a : InstallArgs) (api : BuildApi)
    (bd : BuildDefinition) (i : Nat) (e : VendorErr)
    (h1 : env.getBuildApiClientResult = Except.ok api)
    (h2 : api.createDefinitionResult
        (definitionForAzureRepoPipeline (installPipelineConfig a)) a.project
      = Except.ok (some bd))
    (h3 : bd.id = some i)
    (h4 : api.queueBuildResult (queueBuildReference i) a.project = Except.error e) :
    installPipeline env a
      = (RunResult.exited 1, [authEvent a, createEvent a, queueEvent a i]) := by
  unfold installPipeline
  rw [h1]
  simp [createPipelineForDefinition, h2, h3, queueBuild, h4,
    authEvent, createEvent, queueEvent]

lemma installPipeline_ok (env : Env) (a : InstallArgs) (api : BuildApi)
    (bd : BuildDefinition) (i : Nat) (b : Build)
    (h1 : env.getBuildApiClientResult = Except.ok api)
    (h2 : api.createDefinitionResult
        (definitionForAzureRepoPipeline (installPipelineConfig a)) a.project
      = Except.ok (some bd))
    (h3 : bd.id = some i)
    (h4 : api.queueBuildResult (queueBuildReference i) a.project = Except.ok b) :
    installPipeline env a
      = (RunResult.success, [authEvent a, createEvent a, queueEvent a i]) := by
  unfold installPipeline
  rw [h1]
  simp [createPipelineForDefinition, h2, h3, queueBuild, h4,
    authEvent, createEvent, queueEvent]

/-- The trace of every run is `[auth]`, `[auth, create]`, or
`[auth, create, queue i]`, the last only when creation succeeded with id `i`. -/
lemma installPipeline_trace_cases (env : Env) (a : InstallArgs) :
    (installPipeline env a).2 = [authEvent a] ∨
    (installPipeline env a).2 = [authEvent a, createEvent a] ∨
    ∃ api bd i,
      env.getBuildApiClientResult = Except.ok api ∧
      api.createDefinitionResult
          (definitionForAzureRepoPipeline (installPipelineConfig a)) a.project
        = Except.ok (some bd) ∧
      bd.id = some i ∧
      (installPipeline env a).2 = [authEvent a, createEvent a, queueEvent a i] := by
  rcases h1 : env.getBuildApiClientResult with e | api
  · exact Or.inl (by rw [installPipeline_authFail env a e h1])
  · rcases h2 : api.createDefinitionResult
        (definitionForAzureRepoPipeline (installPipelineConfig a)) a.project
      with e | ob
    · exact Or.inr (Or.inl (by rw [installPipeline_createErr env a api e h1 h2]))
    · rcases ob with _ | bd
      · exact Or.inr (Or.inl (by rw [installPipeline_createNull env a api h1 h2]))
      · rcases h3 : bd.id with _ | i
        · exact Or.inr (Or.inl (by rw [installPipeline_noId env a api bd h1 h2 h3]))
        · rcases h4 : api.queueBuildResult (queueBuildReference i) a.project with e | b
          · exact Or.inr (Or.inr ⟨api, bd, i, rfl, h2, h3,
              by rw [installPipeline_queueErr env a api bd i e h1 h2 h3 h4]⟩)
          · exact Or.inr (Or.inr ⟨api, bd, i, rfl, h2, h3,
              by rw [installPipeline_ok env a api bd i b h1 h2 h3 h4]⟩)

/-- Any definition-creation event in a trace carries exactly the definition
built from `installPipelineConfig` and the project argument. -/
lemma createDefinitionCall_mem (env : Env) (a : InstallArgs) (d : BuildDefinition)
    (pr : String)
    (h : Event.createDefinitionCall d pr ∈ (installPipeline env a).2) :
    d = definitionForAzureRepoPipeline (installPipelineConfig a) ∧ pr = a.project := by
  rcases installPipeline_trace_cases env a with ht | ht | ⟨api, bd, i, _, _, _, ht⟩ <;>
    rw [ht] at h <;>
    simp [authEvent, createEvent, queueEvent, Event.createDefinitionCall.injEq] at h <;>
    tauto

/-- `validateOpts` succeeds exactly when all six checked values are strings. -/
lemma validateOpts_eq_none (r : ResolvedOpts) :
    validateOpts r = none ↔
      (r.pipelineName.isStr && r.personalAccessToken.isStr && r.orgName.isStr
        && r.repoName.isStr && r.repoUrl.isStr && r.devopsProject.isStr) = true := by
  unfold validateOpts
  split_ifs <;> simp_all

/-- Claim C1, counterexample: `packagesDir` set to the defined string `""` is
falsy in JavaScript, so the definition submitted by `installPipeline` carries
the root YAML path `azure-pipelines.yaml`, not
`path.join("", serviceName, "azure-pipelines.yaml")`, which is
`svc/azure-pipelines.yaml`. -/
theorem C1_counterexample :
    (installPipelineConfig emptyPkgArgs).yamlFilePath = "azure-pipelines.yaml" ∧
    Event.createDefinitionCall
        (definitionForAzureRepoPipeline (installPipelineConfig emptyPkgArgs)) "proj"
      ∈ (installPipeline okEnv emptyPkgArgs).2 ∧
    (definitionForAzureRepoPipeline (installPipelineConfig emptyPkgArgs)).process
      = some { yamlFilename := some "azure-pipelines.yaml" } ∧
    pathJoin ["", "svc", "azure-pipelines.yaml"] = "svc/azure-pipelines.yaml" ∧
    (installPipelineConfig emptyPkgArgs).yamlFilePath
      ≠ pathJoin ["", "svc", "azure-pipelines.yaml"] := by
  refine ⟨rfl, by decide, rfl, by decide, by decide⟩

/-- Claim C1 (amended): every definition-creation call made by
`installPipeline` carries the YAML path
`path.join(packagesDir, serviceName, "azure-pipelines.yaml")` when
`packagesDir` is a defined non-empty string, and exactly
`azure-pipelines.yaml` when `packagesDir` is undefined or the empty string. -/
theorem C1_yaml_file_path (env : Env) (a : InstallArgs) (d : BuildDefinition)
    (pr : String)
    (h : Event.createDefinitionCall d pr ∈ (installPipeline env a).2) :
    d.process = some { yamlFilename := some (
      match a.packagesDir with
      | some dir =>
          if dir = "" then "azure-pipelines.yaml"
          else pathJoin [dir, a.serviceName, "azure-pipelines.yaml"]
      | none => "azure-pipelines.yaml") } := by
  obtain ⟨rfl, -⟩ := createDefinitionCall_mem env a d pr h
  rcases hp : a.packagesDir with _ | dir
  · simp [definitionForAzureRepoPipeline, installPipelineConfig, jsTruthy, hp]
  · by_cases hd : dir = ""
    · simp [definitionForAzureRepoPipeline, installPipelineConfig, jsTruthy, hp, hd]
    · simp [definitionForAzureRepoPipeline, installPipelineConfig, jsTruthy, hp, hd]

/-- Claim C1, witness: a run with `packagesDir = "packages"` and service
`svc` submits the YAML path `packages/svc/azure-pipelines.yaml`. -/
theorem C1_yaml_file_path_witness :
    Event.createDefinitionCall
        (definitionForAzureRepoPipeline (installPipelineConfig sampleArgs)) "proj"
      ∈ (installPipeline okEnv sampleArgs).2 ∧
    (definitionForAzureRepoPipeline (installPipelineConfig sampleArgs)).process
      = some { yamlFilename := some (pathJoin ["packages", "svc", "azure-pipelines.yaml"]) } := by
  have hmem : Event.createDefinitionCall
      (definitionForAzureRepoPipeline (installPipelineConfig sampleArgs)) "proj"
    ∈ (installPipeline okEnv sampleArgs).2 := by decide
  refine ⟨hmem, ?_⟩
  have hc := C1_yaml_file_path okEnv sampleArgs _ _ hmem
  simpa using hc

/-- Claim C2: in a successful run whose created definition has a defined id,
the queue call is made with a `Build` whose `definition.id` is exactly that
id, and `queueBuild` always submits a `Build` whose `definition.id` is its
`definitionId` argument unchanged. -/
theorem C2_queue_uses_returned_id (env : Env) (a : InstallArgs) (api : BuildApi)
    (bd : BuildDefinition) (i : Nat)
    (h1 : env.getBuildApiClientResult = Except.ok api)
    (h2 : api.createDefinitionResult
        (definitionForAzureRepoPipeline (installPipelineConfig a)) a.project
      = Except.ok (some bd))
    (h3 : bd.id = some i)
    (h4 : (installPipeline env a).1 = RunResult.success) :
    Event.queueBuildCall { definition := some { id := some i } } a.project
        ∈ (installPipeline env a).2 ∧
    ∀ (api2 : BuildApi) (proj : String) (defnId : Nat),
      (queueBuild api2 proj defnId).2
        = [Event.queueBuildCall { definition := some { id := some defnId } } proj] := by
  constructor
  · rcases hq : api.queueBuildResult (queueBuildReference i) a.project with e | b
    · rw [installPipeline_queueErr env a api bd i e h1 h2 h3 hq] at h4
      simp at h4
    · rw [installPipeline_ok env a api bd i b h1 h2 h3 hq]
      simp [queueEvent, queueBuildReference]
  · intro api2 proj defnId
    rfl

/-- Claim C2, witness: in the all-success environment the queue call carries
the server-assigned id 42. -/
theorem C2_queue_uses_returned_id_witness :
    Event.queueBuildCall { definition := some { id := some 42 } } sampleArgs.project
        ∈ (installPipeline okEnv sampleArgs).2 ∧
    (queueBuild alwaysOkApi "proj" 42).2
      = [Event.queueBuildCall { definition := some { id := some 42 } } "proj"] := by
  have hc := C2_queue_uses_returned_id okEnv sampleArgs alwaysOkApi
    { definitionForAzureRepoPipeline (installPipelineConfig sampleArgs) with
        id := some 42 }
    42 rfl rfl rfl (by decide)
  exact ⟨hc.1, hc.2 alwaysOkApi "proj" 42⟩

/-- Claim C3: if any of the six required resolved option values is not a
string, the command action exits with status 1 with an empty vendor-call
trace (no vendor API call is made). -/
theorem C3_validation_exits (env : Env) (cfg : Config) (serviceName : String)
    (opts : CommandOpts) (gitRepoName gitRepoUrl : JsVal)
    (h : (resolveOpts opts cfg serviceName gitRepoName gitRepoUrl).pipelineName.isStr = false
      ∨ (resolveOpts opts cfg serviceName gitRepoName gitRepoUrl).personalAccessToken.isStr = false
      ∨ (resolveOpts opts cfg serviceName gitRepoName gitRepoUrl).orgName.isStr = false
      ∨ (resolveOpts opts cfg serviceName gitRepoName gitRepoUrl).repoName.isStr = false
      ∨ (resolveOpts opts cfg serviceName gitRepoName gitRepoUrl).repoUrl.isStr = false
      ∨ (resolveOpts opts cfg serviceName gitRepoName gitRepoUrl).devopsProject.isStr = false) :
    commandAction env cfg serviceName opts gitRepoName gitRepoUrl
      = (RunResult.exited 1, []) := by
  have hv : validateOpts (resolveOpts opts cfg serviceName gitRepoName gitRepoUrl)
      ≠ none := by
    rw [Ne, validateOpts_eq_none]
    rcases h with h | h | h | h | h | h <;> simp [h]
  simp only [commandAction]
  rcases hval : validateOpts (resolveOpts opts cfg serviceName gitRepoName gitRepoUrl)
    with _ | m
  · exact absurd hval hv
  · rfl

/-- Claim C3, witness: a numeric `--pipeline-name` makes the command exit
with status 1 and no vendor call. -/
theorem C3_validation_exits_witness :
    commandAction okEnv {} "svc" { pipelineName := JsVal.num 3 }
        JsVal.undef JsVal.undef
      = (RunResult.exited 1, []) :=
  C3_validation_exits okEnv {} "svc" { pipelineName := JsVal.num 3 }
    JsVal.undef JsVal.undef (Or.inl (by decide))

/-- Claim C4: if any of the three vendor calls fails, the run exits with
status 1, the failing call is not retried, and no later vendor call is
attempted (the trace is exactly the calls up to and including the failing
one, each once). -/
theorem C4_vendor_failure_exits (env : Env) (a : InstallArgs) :
    (∀ e, env.getBuildApiClientResult = Except.error e →
      installPipeline env a = (RunResult.exited 1, [authEvent a])) ∧
    (∀ api e, env.getBuildApiClientResult = Except.ok api →
      api.createDefinitionResult
          (definitionForAzureRepoPipeline (installPipelineConfig a)) a.project
        = Except.error e →
      installPipeline env a = (RunResult.exited 1, [authEvent a, createEvent a])) ∧
    (∀ api bd i e, env.getBuildApiClientResult = Except.ok api →
      api.createDefinitionResult
          (definitionForAzureRepoPipeline (installPipelineConfig a)) a.project
        = Except.ok (some bd) →
      bd.id = some i →
      api.queueBuildResult (queueBuildReference i) a.project = Except.error e →
      installPipeline env a
        = (RunResult.exited 1, [authEvent a, createEvent a, queueEvent a i])) :=
  ⟨fun e h => installPipeline_authFail env a e h,
   fun api e h1 h2 => installPipeline_createErr env a api e h1 h2,
   fun api bd i e h1 h2 h3 h4 =>
     installPipeline_queueErr env a api bd i e h1 h2 h3 h4⟩

/-- Claim C4, witness: the three failing environments each exit with status 1
after exactly the calls made so far. -/
theorem C4_vendor_failure_exits_witness :
    installPipeline authFailEnv sampleArgs
      = (RunResult.exited 1, [authEvent sampleArgs]) ∧
    installPipeline createFailEnv sampleArgs
      = (RunResult.exited 1, [authEvent sampleArgs, createEvent sampleArgs]) ∧
    installPipeline queueFailEnv sampleArgs
      = (RunResult.exited 1,
         [authEvent sampleArgs, createEvent sampleArgs, queueEvent sampleArgs 42]) :=
  ⟨(C4_vendor_failure_exits authFailEnv sampleArgs).1 { msg := "auth failed" } rfl,
   (C4_vendor_failure_exits createFailEnv sampleArgs).2.1 createFailApi
     { msg := "create failed" } rfl rfl,
   (C4_vendor_failure_exits queueFailEnv sampleArgs).2.2 queueFailApi
     { definitionForAzureRepoPipeline (installPipelineConfig sampleArgs) with
         id := some 42 }
     42 { msg := "queue failed" } rfl rfl rfl rfl⟩

/-- Claim C5: the vendor-call trace of every run is, in order, authenticate, then
(possibly) create definition, then (possibly) queue build, each at most once,
and the queue call happens only when creation succeeded with a defined id. -/
theorem C5_call_order (env : Env) (a : InstallArgs) :
    (installPipeline env a).2 = [authEvent a] ∨
    (installPipeline env a).2 = [authEvent a, createEvent a] ∨
    ∃ api bd i,
      env.getBuildApiClientResult = Except.ok api ∧
      api.createDefinitionResult
          (definitionForAzureRepoPipeline (installPipelineConfig a)) a.project
        = Except.ok (some bd) ∧
      bd.id = some i ∧
      (installPipeline env a).2 = [authEvent a, createEvent a, queueEvent a i] :=
  installPipeline_trace_cases env a

/-- Claim C6: `definitionForAzureRepoPipeline` maps every configuration field
onto the vendor schema: name, repository id/name/url/defaultBranch, YAML
filename, a single continuous-integration trigger with the given branch
filters and concurrency bound, and the agent-pool queue binding. -/
theorem C6_definition_mapping (c : IAzureRepoPipelineConfig) :
    (definitionForAzureRepoPipeline c).name = some c.pipelineName ∧
    (definitionForAzureRepoPipeline c).repository = some
      { defaultBranch := some c.yamlFileBranch
        id := some c.repositoryName
        name := some c.repositoryName
        type := some "tfsgit"
        url := some c.repositoryUrl
        properties := none } ∧
    (definitionForAzureRepoPipeline c).process
      = some { yamlFilename := some c.yamlFilePath } ∧
    (definitionForAzureRepoPipeline c).triggers = some
      [{ batchChanges := some false
         branchFilters := some c.branchFilters
         maxConcurrentBuildsPerBranch := some c.maximumConcurrentBuilds
         settingsSourceType := some 2
         triggerType := some DefinitionTriggerType.continuousIntegration }] ∧
    (definitionForAzureRepoPipeline c).queue = some
      { name := some hostedUbuntuPool
        pool := some { id := some hostedUbuntuPoolId, name := some hostedUbuntuPool } } :=
  ⟨rfl, rfl, rfl, rfl, rfl⟩

/-- Claim C7: the definition built by `definitionForAzureRepoPipeline` is
forwarded unchanged: every definition-creation call in a run of
`installPipeline` carries exactly that definition and the project argument,
and `createPipelineForDefinition` passes its `definition` argument to the
vendor call unmodified. -/
theorem C7_definition_forwarded (env : Env) (a : InstallArgs) :
    (∀ d pr, Event.createDefinitionCall d pr ∈ (installPipeline env a).2 →
      d = definitionForAzureRepoPipeline (installPipelineConfig a) ∧ pr = a.project) ∧
    ∀ (api : BuildApi) (proj : String) (defn : BuildDefinition),
      (createPipelineForDefinition api proj defn).2
        = [Event.createDefinitionCall defn proj] :=
  ⟨fun d pr h => createDefinitionCall_mem env a d pr h,
   fun _ _ _ => rfl⟩

/-- Claim C7, witness: in the all-success run the submitted definition is the
one built from the configuration, unchanged. -/
theorem C7_definition_forwarded_witness :
    (definitionForAzureRepoPipeline (installPipelineConfig sampleArgs)
        = definitionForAzureRepoPipeline (installPipelineConfig sampleArgs)
      ∧ "proj" = sampleArgs.project) ∧
    (createPipelineForDefinition alwaysOkApi "proj"
        (definitionForAzureRepoPipeline (installPipelineConfig sampleArgs))).2
      = [Event.createDefinitionCall
          (definitionForAzureRepoPipeline (installPipelineConfig sampleArgs)) "proj"] :=
  ⟨(C7_definition_forwarded okEnv sampleArgs).1
      (definitionForAzureRepoPipeline (installPipelineConfig sampleArgs)) "proj"
      (by decide),
   (C7_definition_forwarded okEnv sampleArgs).2 alwaysOkApi "proj"
      (definitionForAzureRepoPipeline (installPipelineConfig sampleArgs))⟩

/-- Claim C8: when creation succeeds but the returned definition has no id,
`installPipeline` throws (it does not call `exitFn`) and the queue call is
never made. -/
theorem C8_missing_id_throws (env : Env) (a : InstallArgs) (api : BuildApi)
    (bd : BuildDefinition)
    (h1 : env.getBuildApiClientResult = Except.ok api)
    (h2 : api.createDefinitionResult
        (definitionForAzureRepoPipeline (installPipelineConfig a)) a.project
      = Except.ok (some bd))
    (h3 : bd.id = none) :
    installPipeline env a
      = (RunResult.threw "Invalid BuildDefinition created, parameter id is missing",
         [authEvent a, createEvent a]) ∧
    ∀ b pr, Event.queueBuildCall b pr ∉ (installPipeline env a).2 := by
  have he := installPipeline_noId env a api bd h1 h2 h3
  refine ⟨he, fun b pr hmem => ?_⟩
  rw [he] at hmem
  simp [authEvent, createEvent] at hmem

/-- Claim C8, witness: a vendor echoing the definition (whose id is `none`)
makes the run throw with no queue call. -/
theorem C8_missing_id_throws_witness :
    installPipeline noIdEnv sampleArgs
      = (RunResult.threw "Invalid BuildDefinition created, parameter id is missing",
         [authEvent sampleArgs, createEvent sampleArgs]) ∧
    ∀ b pr, Event.queueBuildCall b pr ∉ (installPipeline noIdEnv sampleArgs).2 :=
  C8_missing_id_throws noIdEnv sampleArgs noIdApi
    (definitionForAzureRepoPipeline (installPipelineConfig sampleArgs)) rfl rfl rfl

/-- Claim C9: when the `--pipeline-name` option is omitted, the resolved
pipeline name is the service name with `-pipeline` appended. -/
theorem C9_default_pipeline_name (opts : CommandOpts) (cfg : Config)
    (serviceName : String) (gitRepoName gitRepoUrl : JsVal)
    (h : opts.pipelineName = JsVal.undef) :
    (resolveOpts opts cfg serviceName gitRepoName gitRepoUrl).pipelineName
      = JsVal.str (serviceName ++ "-pipeline") := by
  simp [resolveOpts, withDefault, h]

/-- Claim C9, witness: with no options, service `svc` resolves to pipeline
name `svc-pipeline`. -/
theorem C9_default_pipeline_name_witness :
    (resolveOpts {} {} "svc" JsVal.undef JsVal.undef).pipelineName
      = JsVal.str "svc-pipeline" :=
  C9_default_pipeline_name {} {} "svc" JsVal.undef JsVal.undef rfl

/-- Claim C10: every built definition has the fixed values badge enabled,
queue status Enabled, type Build, quality Definition, repository type
`tfsgit`, and the `Hosted Ubuntu 1604` queue with pool id 224; the variables
field is present exactly when the variables of the configuration are defined. -/
theorem C10_fixed_fields (c : IAzureRepoPipelineConfig) :
    (definitionForAzureRepoPipeline c).badgeEnabled = some true ∧
    (definitionForAzureRepoPipeline c).queueStatus
      = some DefinitionQueueStatus.enabled ∧
    (definitionForAzureRepoPipeline c).type = some DefinitionType.build ∧
    (definitionForAzureRepoPipeline c).quality
      = some DefinitionQuality.definition ∧
    ((definitionForAzureRepoPipeline c).repository.map (fun r => r.type))
      = some (some "tfsgit") ∧
    (definitionForAzureRepoPipeline c).queue = some
      { name := some "Hosted Ubuntu 1604"
        pool := some { id := some 224, name := some "Hosted Ubuntu 1604" } } ∧
    ((definitionForAzureRepoPipeline c).variablesMap.isSome
      ↔ c.variablesMap.isSome) :=
  ⟨rfl, rfl, rfl, rfl, rfl, rfl, Iff.rfl⟩

end Spk
